import Mathlib

/-!
Verification development for the movie-suggestion retrieval pipeline
(`rag_cli.py` and `app.py`): a shallow embedding of the embedding cache,
the index construction, query-time search and the summarisation adapter,
together with theorems settling the specified properties.
-/

set_option maxHeartbeats 1000000

namespace MovieRag

/-- Scalar values appearing in a catalog record, as produced by reading the
CSV into row dictionaries: strings, integers, the floating not-a-number
marker used by pandas for missing cells, and nothing else relevant here. -/
inductive Value where
  | str (s : String)
  | num (n : Int)
  | nan
  deriving DecidableEq, Repr

/-- A catalog row record: a mapping of field name to scalar value
(`dataframe.to_dict("records")` yields one dict per row). -/
def Record := List (String × Value)

instance : DecidableEq Record := by
  unfold Record
  exact inferInstance

/-- Dictionary lookup, `record.get(key)`: `none` models Python's `None`
result for a missing key. -/
def recordGet (r : Record) (k : String) : Option Value :=
  r.lookup k

/-- Python truthiness of a scalar value: empty strings and zero are falsy;
`nan` is truthy. -/
def truthy : Value → Bool
  | .str s => s ≠ ""
  | .num n => n ≠ 0
  | .nan => true

/-- Truthiness of a `record.get` result: `None` is falsy. -/
def optTruthy : Option Value → Bool
  | none => false
  | some v => truthy v

/-- Python `str(value)` on a scalar. -/
def pyStr : Value → String
  | .str s => s
  | .num n => toString n
  | .nan => "nan"

/-- Errors raised by the embedded code, plus the spec's error taxonomy
names (`emptyCatalog`, `emptyPrompt`) which let claims about that taxonomy
be stated; the code itself never produces the latter two. -/
inductive PyErr where
  | indexError
  | valueError
  | jsonDecodeError
  | npzLoadError
  | runtimeError
  | emptyCatalog
  | emptyPrompt
  deriving DecidableEq, Repr

/-- Python `str.strip()`: drop leading and trailing whitespace. -/
def pyStrip (s : String) : String :=
  String.mk
    (((s.data.dropWhile Char.isWhitespace).reverse.dropWhile
      Char.isWhitespace).reverse)

/-- Python `int(value)`: exact on integers, parses integer strings, raises
`ValueError` otherwise (in particular on `nan`). -/
def pyInt : Value → Except PyErr Int
  | .num n => .ok n
  | .str s =>
      match (pyStrip s).toInt? with
      | some n => .ok n
      | none => .error .valueError
  | .nan => .error .valueError

/-- The `pd.isna` test as applied to a `record.get` result: true exactly
for a missing key (`None`) or a `nan` cell. -/
def pyIsna : Option Value → Bool
  | none => true
  | some .nan => true
  | some _ => false

/-- Embedding vector: a fixed-length numeric vector produced by the
encoder, with rational components standing for the floats. -/
def Vec := List Rat

instance : DecidableEq Vec := by
  unfold Vec
  exact inferInstance

/-- The `_record_to_text` derivation of `rag_cli.py`: the title
(`str(record.get("Movie Name", ""))`), then `genre: …` when the genre
value is truthy, then `released: int(year)` when the year is not NA, then
`profit: …` when the profit is not NA, joined by period-space. -/
def recordToText (r : Record) : Except PyErr String := do
  let title := pyStr ((recordGet r "Movie Name").getD (.str ""))
  let genreP : List String :=
    match recordGet r "genre" with
    | none => []
    | some g => if truthy g then ["genre: " ++ pyStr g] else []
  let yearP : List String ←
    if pyIsna (recordGet r "Release Year") then pure []
    else
      match recordGet r "Release Year" with
      | none => pure []
      | some y => do
          let n ← pyInt y
          pure ["released: " ++ toString n]
  let profitP : List String :=
    if pyIsna (recordGet r "Profit") then []
    else
      match recordGet r "Profit" with
      | none => []
      | some p => ["profit: " ++ pyStr p]
  .ok (String.intercalate ". " (title :: (genreP ++ yearP ++ profitP)))

/-- Modelled from the spec: the derived text representation as the claim
states it — the title, then each auxiliary field rendered as
`label: value`, joined by period-space, omitting a field that is absent,
not-a-number, or empty. It differs from `recordToText` only in that a
not-a-number genre is omitted here. -/
def movieSpecText (r : Record) : Except PyErr String := do
  let title := pyStr ((recordGet r "Movie Name").getD (.str ""))
  let genreP : List String :=
    match recordGet r "genre" with
    | none => []
    | some g =>
        if g = Value.nan then []
        else if truthy g then ["genre: " ++ pyStr g] else []
  let yearP : List String ←
    match recordGet r "Release Year" with
    | none => pure []
    | some y =>
        if y = Value.nan then pure []
        else do
          let n ← pyInt y
          pure ["released: " ++ toString n]
  let profitP : List String :=
    match recordGet r "Profit" with
    | none => []
    | some p => if p = Value.nan then [] else ["profit: " ++ pyStr p]
  .ok (String.intercalate ". " (title :: (genreP ++ yearP ++ profitP)))

/-- Content of one on-disk cache artifact: absent, present but unreadable
(unparsable JSON or an unreadable vector blob), or valid content. -/
inductive FileContent (α : Type) where
  | absent
  | corrupt
  | stored (a : α)
  deriving DecidableEq

/-- The cache metadata record written by `_persist_vectors`. -/
structure CacheMeta where
  dataset_signature : String
  encoder_name : String
  vector_dim : Nat
  deriving DecidableEq, Repr

/-- The on-disk cache state: the vector blob (`.npz`) and the metadata
record (`.json`) for the one `(collection, encoder)` cache key in play. -/
structure CacheState where
  vectorsFile : FileContent (List Vec)
  metaFile : FileContent CacheMeta
  deriving DecidableEq

/-- The `vectors.shape[1]` read: the row dimension of a 2-D array of
vectors; on an empty vector list the array is 1-D and the subscript
raises `IndexError`. -/
def shape1 : List Vec → Except PyErr Nat
  | [] => .error .indexError
  | v :: _ => .ok v.length

/-- The `_load_cached_vectors` routine: a miss (`none`) when either file
is absent; otherwise the metadata is parsed (raising on corruption), a
signature or encoder-name mismatch is a miss, and finally the vector blob
is loaded (raising on corruption). The stored `vector_dim` is never
consulted. -/
def loadCachedVectors (sig enc : String) (s : CacheState) :
    Except PyErr (Option (List Vec)) :=
  match s.vectorsFile, s.metaFile with
  | .absent, _ => .ok none
  | _, .absent => .ok none
  | vf, .corrupt => .error .jsonDecodeError
  | vf, .stored m =>
      if m.dataset_signature ≠ sig then .ok none
      else if m.encoder_name ≠ enc then .ok none
      else
        match vf with
        | .corrupt => .error .npzLoadError
        | .stored v => .ok (some v)
        | .absent => .ok none

/-- First half of `_persist_vectors`: `np.savez_compressed` writes the
vector blob directly to its final path. -/
def persistStep1 (vectors : List Vec) (s : CacheState) : CacheState :=
  CacheState.mk (.stored vectors) s.metaFile

/-- Second half of `_persist_vectors`: the metadata record — whose
`vector_dim` field reads `vectors.shape[1]`, raising on an empty vector
list — is written directly to its final path. -/
def persistStep2 (sig enc : String) (vectors : List Vec) (s : CacheState) :
    Except PyErr CacheState :=
  match shape1 vectors with
  | .error e => .error e
  | .ok d => .ok (CacheState.mk s.vectorsFile (.stored (CacheMeta.mk sig enc d)))

/-- The `_persist_vectors` routine: the two in-place file writes in
sequence, with no temporary location or atomic publish step. -/
def persistVectors (sig enc : String) (vectors : List Vec) (s : CacheState) :
    Except PyErr CacheState :=
  persistStep2 sig enc vectors (persistStep1 vectors s)

/-- One point of the similarity index: row position as identifier, the
full record as payload, and the embedding vector. -/
structure IndexEntry where
  id : Nat
  payload : Record
  vector : Vec
  deriving DecidableEq

/-- One ranked search result as returned by the index. -/
structure SearchHit where
  id : Nat
  payload : Record
  score : Rat
  deriving DecidableEq

/-- Ordering of ranked hits: strictly higher score first, ties by
ascending row identifier. -/
def HitLE (a b : SearchHit) : Prop :=
  b.score < a.score ∨ (a.score = b.score ∧ a.id ≤ b.id)

instance : DecidableRel HitLE := by
  unfold HitLE
  exact fun a b => inferInstance

instance : IsTotal SearchHit HitLE := by
  constructor
  intro a b
  unfold HitLE
  rcases lt_trichotomy a.score b.score with h | h | h
  · exact Or.inr (Or.inl h)
  · rcases Nat.le_total a.id b.id with hid | hid
    · exact Or.inl (Or.inr ⟨h, hid⟩)
    · exact Or.inr (Or.inr ⟨h.symm, hid⟩)
  · exact Or.inl (Or.inl h)

instance : IsTrans SearchHit HitLE := by
  constructor
  intro a b c hab hbc
  unfold HitLE at *
  rcases hab with hab | ⟨hab, hab'⟩
  · rcases hbc with hbc | ⟨hbc, _⟩
    · exact Or.inl (hbc.trans hab)
    · exact Or.inl (hbc ▸ hab)
  · rcases hbc with hbc | ⟨hbc, hbc'⟩
    · exact Or.inl (hab ▸ hbc)
    · exact Or.inr ⟨hab.trans hbc, hab'.trans hbc'⟩

/-- Modelled from the spec: the Similarity Index `search` operation. In
the source the index is an external in-memory vector store (only its
caller is under `src/`), so its contract is taken from the spec: score
every stored vector against the query with the similarity metric
(cosine similarity, consumed here as the parameter `sim` since it is
computed by the external store), order by descending score with ties
broken by ascending row identifier, and return the first `k`. -/
def indexSearch (sim : Vec → Vec → Rat) (entries : List IndexEntry)
    (q : Vec) (k : Nat) : List SearchHit :=
  (List.insertionSort HitLE
    (entries.map fun e => SearchHit.mk e.id e.payload (sim q e.vector))).take k

/-- List indexing as `vectors[idx]`: raises `IndexError` out of range. -/
def listGetE (l : List Vec) (i : Nat) : Except PyErr Vec :=
  match l.get? i with
  | some v => .ok v
  | none => .error .indexError

/-- The point construction of `_ensure_collection`: one point per record
position, pairing `vectors[idx]` with `records[idx]` as payload. -/
def buildEntries (records : List Record) (vectors : List Vec) :
    Except PyErr (List IndexEntry) :=
  (List.range records.length).mapM fun idx => do
    let v ← listGetE vectors idx
    match records.get? idx with
    | some r => .ok (IndexEntry.mk idx r v)
    | none => .error .indexError

/-- The `_ensure_collection` startup sequence: attempt the cache load
(propagating any error it raises); on a miss derive every record's text,
encode each, and persist the vectors; read the vector dimension
(`vectors.shape[1]`); then rebuild the collection's points wholesale.
Returns the resulting cache state and index contents; an error aborts
initialization with no instance produced. -/
def ensureCollection (encode : String → Vec) (records : List Record)
    (sig enc : String) (cache : CacheState) :
    Except PyErr (CacheState × List IndexEntry) := do
  let cached ← loadCachedVectors sig enc cache
  match cached with
  | some vectors => do
      let _d ← shape1 vectors
      let entries ← buildEntries records vectors
      .ok (cache, entries)
  | none => do
      let texts ← records.mapM recordToText
      let vectors := texts.map encode
      let cache2 ← persistVectors sig enc vectors cache
      let _d ← shape1 vectors
      let entries ← buildEntries records vectors
      .ok (cache2, entries)

/-- A movie search result as built by `MovieRAG.search`: the payload's
`Movie Name` field (defaulting to the placeholder `<unknown>`), the full
payload, and the score. -/
structure MovieHit where
  title : Value
  details : Record
  score : Rat
  deriving DecidableEq

/-- The `MovieRAG.search` method: encode the prompt (unconditionally —
there is no blank-prompt check here), query the index, and package each
hit. The second component is the log of texts passed to the encoder's
`encode` during the call. -/
def ragSearch (encode : String → Vec) (sim : Vec → Vec → Rat)
    (entries : List IndexEntry) (prompt : String) (topK : Nat) :
    List MovieHit × List String :=
  let q := encode prompt
  ((indexSearch sim entries q topK).map fun h =>
    MovieHit.mk ((recordGet h.payload "Movie Name").getD (.str "<unknown>"))
      h.payload h.score,
   [prompt])

/-- Truthiness of an optional string (Python `if not llm_model`). -/
def optStrTruthy : Option String → Bool
  | none => false
  | some s => s ≠ ""

/-- The `summarise_hits` adapter: with no model configured it returns
`None` at once; with the client library unavailable it raises; otherwise
it makes exactly one external completion call (whose reply is the
parameter `complete`). The second component counts external calls. -/
def summariseHits (openAIAvailable : Bool) (complete : String)
    (hits : List MovieHit) (prompt : String)
    (llmModel baseUrl apiKey : Option String) :
    Except PyErr (Option String) × Nat :=
  if ¬ optStrTruthy llmModel then (.ok none, 0)
  else if ¬ openAIAvailable then (.error .runtimeError, 0)
  else (.ok (some complete), 1)

/-- Python `str(value).strip() or None` of `_safe_str` in `app.py`. -/
def safeStr : Option Value → Option String
  | none => none
  | some v =>
      let t := pyStrip (pyStr v)
      if t = "" then none else some t

/-- The `_safe_int` coercion of `app.py`. -/
def safeInt : Option Value → Option Int
  | none => none
  | some .nan => none
  | some (.num n) => some n
  | some (.str s) => (pyStrip s).toInt?

/-- The response rows built by `search_movies` in `app.py`. -/
structure MovieResult where
  title : Value
  genre : Option String
  release_year : Option Int
  score : Rat
  payload : Record
  deriving DecidableEq

/-- Conversion of one pipeline hit into an API result row. -/
def toMovieResult (h : MovieHit) : MovieResult :=
  MovieResult.mk h.title (safeStr (recordGet h.details "genre"))
    (safeInt (recordGet h.details "Release Year")) h.score h.details

/-- The `/api/search` request body. -/
structure SearchRequest where
  prompt : String
  top_k : Nat
  summarize : Bool

/-- The `/api/search` response body. -/
structure SearchResponse where
  results : List MovieResult
  summary : Option String
  deriving DecidableEq

/-- Errors surfaced by the HTTP endpoint, by status code. -/
inductive AppErr where
  | httpError (status : Nat)
  deriving DecidableEq, Repr

/-- The `search_movies` endpoint of `app.py`: trim the prompt and reject
a blank one with status 400 before any search or encoding; otherwise
search with the trimmed prompt, build the result rows, and call the
summarisation adapter only when both requested and a model is configured
(a summarisation failure becomes status 502). The second component is
the encoder call log, the third the count of external completion calls. -/
def searchMovies (encode : String → Vec) (sim : Vec → Vec → Rat)
    (entries : List IndexEntry) (llmModel baseUrl apiKey : Option String)
    (openAIAvailable : Bool) (complete : String) (req : SearchRequest) :
    Except AppErr SearchResponse × List String × Nat :=
  let p := pyStrip req.prompt
  if p = "" then (.error (.httpError 400), [], 0)
  else
    let sr := ragSearch encode sim entries p req.top_k
    let results := sr.1.map toMovieResult
    if req.summarize ∧ optStrTruthy llmModel then
      match summariseHits openAIAvailable complete sr.1 p llmModel baseUrl apiKey with
      | (.error _, n) => (.error (.httpError 502), sr.2, n)
      | (.ok s, n) => (.ok (SearchResponse.mk results s), sr.2, n)
    else (.ok (SearchResponse.mk results none), sr.2, 0)

/-- C4: after `store(sig, enc, V)` succeeds, a `load` with the same
signature and encoder identifier returns exactly `V`; a `load` with a
different signature or a different encoder identifier returns a miss even
though `V` is still on disk; and the stored vector dimension is never
consulted as a match key (replacing it by any value changes no `load`
result). -/
theorem C4_theorem (sig enc : String) (V : List Vec) (s s2 : CacheState)
    (hs : persistVectors sig enc V s = .ok s2) :
    loadCachedVectors sig enc s2 = .ok (some V) ∧
    (∀ sig2, sig2 ≠ sig → loadCachedVectors sig2 enc s2 = .ok none) ∧
    (∀ enc2, enc2 ≠ enc → loadCachedVectors sig enc2 s2 = .ok none) ∧
    s2.vectorsFile = .stored V ∧
    (∀ sig0 enc0 d,
      loadCachedVectors sig0 enc0
        (CacheState.mk s2.vectorsFile (.stored (CacheMeta.mk sig enc d))) =
      loadCachedVectors sig0 enc0 s2) := by
  cases V with
  | nil =>
      simp [persistVectors, persistStep1, persistStep2, shape1] at hs
  | cons v t =>
      simp only [persistVectors, persistStep1, persistStep2, shape1] at hs
      cases hs
      refine ⟨?_, ?_, ?_, ?_, ?_⟩
      · simp [loadCachedVectors]
      · intro sig2 hne
        simp [loadCachedVectors, Ne.symm hne]
      · intro enc2 hne
        simp [loadCachedVectors, Ne.symm hne]
      · rfl
      · intro sig0 enc0 d
        simp [loadCachedVectors]

/-- C4 witness: a concrete store followed by a matching load returning the
stored vectors, and a load under a different signature missing. -/
theorem C4_witness :
    loadCachedVectors "s" "e"
      (CacheState.mk (.stored [[1]]) (.stored (CacheMeta.mk "s" "e" 1))) =
      .ok (some [[1]]) ∧
    loadCachedVectors "x" "e"
      (CacheState.mk (.stored [[1]]) (.stored (CacheMeta.mk "s" "e" 1))) =
      .ok none :=
  ⟨( C4_theorem "s" "e" [[1]] (CacheState.mk .absent .absent) _ rfl).1,
   ( C4_theorem "s" "e" [[1]] (CacheState.mk .absent .absent) _ rfl).2.1 "x"
     (by decide)⟩

/-- C5 counterexample: a corrupt metadata file is not treated as a miss —
loading raises and `_ensure_collection` propagates the error (fatal to
initialization), whereas the genuine miss state (absent files) recomputes
and succeeds with the same records and encoder. -/
theorem C5_counterexample :
    ensureCollection (fun _ => ([1] : Vec)) [[("Movie Name", Value.str "A")]]
      "s" "e" (CacheState.mk (.stored [[1]]) .corrupt) =
      .error .jsonDecodeError ∧
    ensureCollection (fun _ => ([1] : Vec)) [[("Movie Name", Value.str "A")]]
      "s" "e" (CacheState.mk .absent .absent) =
      .ok (CacheState.mk (.stored [[1]]) (.stored (CacheMeta.mk "s" "e" 1)),
        [IndexEntry.mk 0 [("Movie Name", Value.str "A")] [1]]) :=
  ⟨rfl, rfl⟩

/-- C5 (amended): a cache entry whose metadata file is unparsable, or
whose metadata matches but whose vector blob is unreadable, makes
`_ensure_collection` raise the corresponding parse or load error —
corruption aborts initialization rather than acting as a miss. -/
theorem C5_theorem (encode : String → Vec) (records : List Record)
    (sig enc : String) (s : CacheState) :
    (s.metaFile = .corrupt → s.vectorsFile ≠ .absent →
      ensureCollection encode records sig enc s = .error .jsonDecodeError) ∧
    (∀ m, s.metaFile = .stored m → m.dataset_signature = sig →
      m.encoder_name = enc → s.vectorsFile = .corrupt →
      ensureCollection encode records sig enc s = .error .npzLoadError) := by
  obtain ⟨vf, mf⟩ := s
  constructor
  · intro hm hv
    simp only at hm hv
    subst hm
    have hl : loadCachedVectors sig enc (CacheState.mk vf .corrupt) =
        .error .jsonDecodeError := by
      cases vf with
      | absent => exact absurd rfl hv
      | corrupt => rfl
      | stored v => rfl
    unfold ensureCollection
    rw [hl]
    rfl
  · intro m hm hsig henc hv
    simp only at hm hv
    subst hm
    subst hv
    have hl : loadCachedVectors sig enc (CacheState.mk .corrupt (.stored m)) =
        .error .npzLoadError := by
      simp [loadCachedVectors, hsig, henc]
    unfold ensureCollection
    rw [hl]
    rfl

/-- C5 witness: the fatal-corruption arm of the theorem applied to a
concrete corrupt-metadata cache state. -/
theorem C5_witness :
    ensureCollection (fun _ => ([1] : Vec)) [] "s" "e"
      (CacheState.mk (.stored [[1]]) .corrupt) = .error .jsonDecodeError :=
  (C5_theorem (fun _ => ([1] : Vec)) [] "s" "e"
    (CacheState.mk (.stored [[1]]) .corrupt)).1 rfl (by decide)

/-- C2 counterexample: with an empty catalog and an empty cache,
`_ensure_collection` fails — but with an `IndexError` raised while
reading `vectors.shape[1]`, not with the spec's dedicated `EmptyCatalog`
condition. -/
theorem C2_counterexample :
    ensureCollection (fun _ => ([1] : Vec)) [] "s" "e"
      (CacheState.mk .absent .absent) = .error .indexError ∧
    PyErr.indexError ≠ PyErr.emptyCatalog :=
  ⟨rfl, by decide⟩

/-- C2 (amended): for an empty record sequence and any cache state that
yields a miss, initialization fails — the `vectors.shape[1]` read inside
`_persist_vectors` raises `IndexError` on the empty embedding array — and
the error propagates, so no pipeline instance is produced. -/
theorem C2_theorem (encode : String → Vec) (sig enc : String)
    (s : CacheState) (hmiss : loadCachedVectors sig enc s = .ok none) :
    ensureCollection encode [] sig enc s = .error .indexError := by
  unfold ensureCollection
  rw [hmiss]
  rfl

/-- C2 witness: the amended theorem applied to the absent-cache state. -/
theorem C2_witness :
    loadCachedVectors "s" "e" (CacheState.mk .absent .absent) = .ok none ∧
    ensureCollection (fun _ => ([2] : Vec)) [] "s" "e"
      (CacheState.mk .absent .absent) = .error .indexError :=
  ⟨rfl, C2_theorem (fun _ => ([2] : Vec)) "s" "e"
    (CacheState.mk .absent .absent) rfl⟩

/-- C9 counterexample: `_persist_vectors` is the two in-place writes in
sequence, and a reader running between them — here a reader configured
with the old encoder identifier, while a writer for a new encoder has
written the vector blob but not yet the metadata — is served the
half-written entry as a cache hit: it receives the new vectors under the
old metadata. -/
theorem C9_counterexample :
    persistVectors "sig" "encNew" [[2]]
      (CacheState.mk (.stored [[1]]) (.stored (CacheMeta.mk "sig" "encOld" 1))) =
      persistStep2 "sig" "encNew" [[2]]
        (persistStep1 [[2]]
          (CacheState.mk (.stored [[1]])
            (.stored (CacheMeta.mk "sig" "encOld" 1)))) ∧
    loadCachedVectors "sig" "encOld"
      (persistStep1 [[2]]
        (CacheState.mk (.stored [[1]])
          (.stored (CacheMeta.mk "sig" "encOld" 1)))) = .ok (some [[2]]) ∧
    ([[2]] : List Vec) ≠ [[1]] :=
  ⟨rfl, rfl, by decide⟩

/-- C9 (amended): the store writes the vector blob and then the metadata
record directly to their final locations, with no temporary-location
publish; consequently, at the intermediate state after the first write,
any reader whose configuration matches the still-on-disk old metadata is
returned the freshly written vectors as a hit. -/
theorem C9_theorem (s : CacheState) (m : CacheMeta) (vnew : List Vec)
    (hm : s.metaFile = .stored m) :
    loadCachedVectors m.dataset_signature m.encoder_name
      (persistStep1 vnew s) = .ok (some vnew) := by
  obtain ⟨vf, mf⟩ := s
  simp only at hm
  subst hm
  simp [persistStep1, loadCachedVectors]

/-- C9 witness: the amended theorem at the concrete mid-store state. -/
theorem C9_witness :
    loadCachedVectors "s" "eOld"
      (persistStep1 [[2]]
        (CacheState.mk (.stored [[1]])
          (.stored (CacheMeta.mk "s" "eOld" 1)))) = .ok (some [[2]]) :=
  C9_theorem
    (CacheState.mk (.stored [[1]]) (.stored (CacheMeta.mk "s" "eOld" 1)))
    (CacheMeta.mk "s" "eOld" 1) [[2]] rfl

/-- C1 counterexample: `MovieRAG.search` on the blank prompt `"   "`
invokes the encoder's `encode` once — with the blank prompt itself — and
raises no `EmptyPrompt`; the claimed zero-encodings failure does not
happen at the pipeline level. -/
theorem C1_counterexample :
    (ragSearch (fun _ => ([1] : Vec)) (fun _ _ => 0) [] "   " 3).2 =
      ["   "] ∧
    pyStrip "   " = "" :=
  ⟨rfl, by decide⟩

/-- C1 (amended): the blank-prompt rejection lives in the HTTP endpoint
`search_movies`, not in the pipeline: a request whose prompt is blank
after trimming is rejected with status 400 before any search, with zero
encoder calls; a non-blank request is trimmed and delegated, encoding
exactly the trimmed prompt once; and `MovieRAG.search` itself encodes
every prompt it is given, blank or not, exactly once. -/
theorem C1_theorem (encode : String → Vec) (sim : Vec → Vec → Rat)
    (entries : List IndexEntry) (llmModel baseUrl apiKey : Option String)
    (avail : Bool) (complete : String) (req : SearchRequest) :
    (pyStrip req.prompt = "" →
      searchMovies encode sim entries llmModel baseUrl apiKey avail complete
        req = (.error (.httpError 400), [], 0)) ∧
    (pyStrip req.prompt ≠ "" →
      (searchMovies encode sim entries llmModel baseUrl apiKey avail complete
        req).2.1 = [pyStrip req.prompt]) ∧
    (∀ prompt topK,
      (ragSearch encode sim entries prompt topK).2 = [prompt]) := by
  refine ⟨?_, ?_, fun prompt topK => rfl⟩
  · intro h
    simp only [searchMovies, h, if_pos]
  · intro h
    simp only [searchMovies, if_neg h]
    split
    · split <;> rfl
    · rfl

/-- C1 witness: the endpoint at a blank and at a non-blank request. -/
theorem C1_witness :
    pyStrip "  " = "" ∧
    searchMovies (fun _ => ([1] : Vec)) (fun _ _ => 0) [] none none none
      false "" (SearchRequest.mk "  " 3 false) =
      (.error (.httpError 400), [], 0) ∧
    pyStrip "hi" ≠ "" ∧
    (searchMovies (fun _ => ([1] : Vec)) (fun _ _ => 0) [] none none none
      false "" (SearchRequest.mk "hi" 3 false)).2.1 = ["hi"] :=
  ⟨by decide,
   (C1_theorem (fun _ => ([1] : Vec)) (fun _ _ => 0) [] none none none
     false "" (SearchRequest.mk "  " 3 false)).1 (by decide),
   by decide,
   (C1_theorem (fun _ => ([1] : Vec)) (fun _ _ => 0) [] none none none
     false "" (SearchRequest.mk "hi" 3 false)).2.1 (by decide)⟩

/-- C8: with no configured model, `summarise_hits` returns `None` at once
with zero external completion calls, and the endpoint still returns the
fully populated result rows built from the search hits — even when the
request asked for a summary. -/
theorem C8_theorem :
    (∀ (avail : Bool) (complete : String) (hs : List MovieHit)
        (pr : String) (baseUrl apiKey : Option String),
      summariseHits avail complete hs pr none baseUrl apiKey =
        (.ok none, 0)) ∧
    (∀ (encode : String → Vec) (sim : Vec → Vec → Rat)
        (entries : List IndexEntry) (baseUrl apiKey : Option String)
        (avail : Bool) (complete : String) (req : SearchRequest),
      pyStrip req.prompt ≠ "" →
      searchMovies encode sim entries none baseUrl apiKey avail complete
        req =
        (.ok (SearchResponse.mk
          ((ragSearch encode sim entries (pyStrip req.prompt) req.top_k).1.map
            toMovieResult) none),
         [pyStrip req.prompt], 0)) := by
  constructor
  · intro avail complete hs pr baseUrl apiKey
    rfl
  · intro encode sim entries baseUrl apiKey avail complete req h
    simp [searchMovies, if_neg h, optStrTruthy, ragSearch]

/-- C8 witness: a summarize-requesting search with no configured model
returns populated (here empty-index) results, no summary, and makes no
external call. -/
theorem C8_witness :
    summariseHits false "x" [] "p" none none none = (.ok none, 0) ∧
    pyStrip "hi" ≠ "" ∧
    searchMovies (fun _ => ([1] : Vec)) (fun _ _ => 0) [] none none none
      false "x" (SearchRequest.mk "hi" 3 true) =
      (.ok (SearchResponse.mk [] none), ["hi"], 0) :=
  ⟨C8_theorem.1 false "x" [] "p" none none,
   by decide,
   C8_theorem.2 (fun _ => ([1] : Vec)) (fun _ _ => 0) [] none none false
     "x" (SearchRequest.mk "hi" 3 true) (by decide)⟩

/-- C10: every hit returned by `MovieRAG.search` whose payload lacks the
`Movie Name` field carries the placeholder title `<unknown>`, and every
hit whose payload has the field carries that field's value as title. -/
theorem C10_theorem (encode : String → Vec) (sim : Vec → Vec → Rat)
    (entries : List IndexEntry) (prompt : String) (topK : Nat)
    (h : MovieHit) (hmem : h ∈ (ragSearch encode sim entries prompt topK).1) :
    (recordGet h.details "Movie Name" = none →
      h.title = .str "<unknown>") ∧
    (∀ v, recordGet h.details "Movie Name" = some v → h.title = v) := by
  simp only [ragSearch, List.mem_map] at hmem
  obtain ⟨x, hx, rfl⟩ := hmem
  constructor
  · intro hn
    simp only at hn ⊢
    rw [hn]
    rfl
  · intro v hv
    simp only at hv ⊢
    rw [hv]
    rfl

/-- C10 witness: a one-entry index whose payload lacks `Movie Name`
yields a hit titled `<unknown>`. -/
theorem C10_witness :
    MovieHit.mk (Value.str "<unknown>") [("a", Value.num 1)] 0 ∈
      (ragSearch (fun _ => ([1] : Vec)) (fun _ _ => 0)
        [IndexEntry.mk 0 [("a", Value.num 1)] [1]] "x" 3).1 ∧
    (MovieHit.mk (Value.str "<unknown>") [("a", Value.num 1)] 0).title =
      Value.str "<unknown>" :=
  ⟨by decide,
   (C10_theorem (fun _ => ([1] : Vec)) (fun _ _ => 0)
     [IndexEntry.mk 0 [("a", Value.num 1)] [1]] "x" 3
     (MovieHit.mk (Value.str "<unknown>") [("a", Value.num 1)] 0)
     (by decide)).1 rfl⟩

/-- C7 counterexample: a record whose `genre` cell is the pandas
not-a-number marker is not omitted from the derived text — Python's
truthiness of `nan` renders it as `genre: nan` — while the claim's
omission rule drops it. -/
theorem C7_counterexample :
    recordToText [("Movie Name", Value.str "Alpha"), ("genre", Value.nan)] =
      .ok "Alpha. genre: nan" ∧
    movieSpecText [("Movie Name", Value.str "Alpha"), ("genre", Value.nan)] =
      .ok "Alpha" ∧
    recordToText [("Movie Name", Value.str "Alpha"), ("genre", Value.nan)] ≠
      movieSpecText [("Movie Name", Value.str "Alpha"), ("genre", Value.nan)] := by
  refine ⟨rfl, rfl, ?_⟩
  intro hcontra
  have h1 : (Except.ok "Alpha. genre: nan" : Except PyErr String) =
      .ok "Alpha" := hcontra
  exact absurd (Except.ok.inj h1) (by decide)

/-- C7 (amended): for every record whose `genre` value is not the
not-a-number marker, the derived text is exactly the claim's rendering —
title first, each present auxiliary field as `label: value`, all joined
by period-space, with absent, not-a-number, or empty fields omitted. A
not-a-number `genre` is the sole divergence. -/
theorem C7_theorem (r : Record)
    (hg : recordGet r "genre" ≠ some Value.nan) :
    recordToText r = movieSpecText r := by
  unfold recordToText movieSpecText
  rcases hgen : recordGet r "genre" with _ | g <;>
    rcases hy : recordGet r "Release Year" with _ | y <;>
    rcases hp : recordGet r "Profit" with _ | p <;>
    first
      | (cases y <;> cases p <;>
          simp_all [pyIsna, truthy] <;> cases g <;> simp_all)
      | (cases y <;> simp_all [pyIsna, truthy] <;> cases g <;> simp_all)
      | (cases p <;> simp_all [pyIsna, truthy] <;> cases g <;> simp_all)
      | (simp_all [pyIsna, truthy] <;> cases g <;> simp_all)

/-- C7 witness: the amended equality at a record with a string genre, a
numeric year and an absent profit. -/
theorem C7_witness :
    recordGet [("Movie Name", Value.str "Alpha"), ("genre", Value.str "War"),
      ("Release Year", Value.num 1999)] "genre" ≠ some Value.nan ∧
    recordToText [("Movie Name", Value.str "Alpha"),
      ("genre", Value.str "War"), ("Release Year", Value.num 1999)] =
      movieSpecText [("Movie Name", Value.str "Alpha"),
        ("genre", Value.str "War"), ("Release Year", Value.num 1999)] :=
  ⟨by decide,
   C7_theorem [("Movie Name", Value.str "Alpha"),
     ("genre", Value.str "War"), ("Release Year", Value.num 1999)]
     (by decide)⟩

/-- C6: when the requested count exceeds the number of indexed items, the
index search returns exactly one hit per indexed item — the count is
clamped to the index size, and the operation is total (no error). -/
theorem C6_theorem (sim : Vec → Vec → Rat) (entries : List IndexEntry)
    (q : Vec) (k : Nat) (hk : entries.length < k) :
    (indexSearch sim entries q k).length = entries.length := by
  unfold indexSearch
  rw [List.length_take, List.length_insertionSort, List.length_map]
  exact Nat.min_eq_right (le_of_lt hk)

/-- C6 witness: requesting three hits from a one-item index returns
exactly one hit. -/
theorem C6_witness :
    ([IndexEntry.mk 0 [] [1]] : List IndexEntry).length < 3 ∧
    (indexSearch (fun _ _ => 0) [IndexEntry.mk 0 [] [1]] [1] 3).length =
      ([IndexEntry.mk 0 [] [1]] : List IndexEntry).length :=
  ⟨by decide,
   C6_theorem (fun _ _ => 0) [IndexEntry.mk 0 [] [1]] [1] 3 (by decide)⟩

/-- C3: over an index whose row identifiers are distinct (as built, one
per catalog row), every hit list returned by the search is sorted by
non-increasing score, and any two hits of identical score appear in
ascending row-identifier order. -/
theorem C3_theorem (sim : Vec → Vec → Rat) (entries : List IndexEntry)
    (q : Vec) (k : Nat) (hk : 1 ≤ k)
    (hids : (entries.map IndexEntry.id).Nodup) :
    (indexSearch sim entries q k).Pairwise
      (fun a b => b.score ≤ a.score ∧ (a.score = b.score → a.id < b.id)) := by
  clear hk
  unfold indexSearch
  set l := entries.map fun e => SearchHit.mk e.id e.payload (sim q e.vector)
    with hl
  have hsorted : (List.insertionSort HitLE l).Pairwise HitLE :=
    List.sorted_insertionSort HitLE l
  have hperm : List.Perm (List.insertionSort HitLE l) l :=
    List.perm_insertionSort HitLE l
  have hidsE : entries.Pairwise fun a b => a.id ≠ b.id :=
    List.pairwise_map.mp hids
  have hneL : l.Pairwise fun a b => a.id ≠ b.id := by
    rw [hl]
    exact List.pairwise_map.mpr hidsE
  have hne : (List.insertionSort HitLE l).Pairwise
      fun a b => a.id ≠ b.id :=
    (hperm.pairwise_iff fun h => Ne.symm h).mpr hneL
  have hfull : (List.insertionSort HitLE l).Pairwise
      (fun a b => b.score ≤ a.score ∧ (a.score = b.score → a.id < b.id)) := by
    refine (hsorted.and hne).imp ?_
    rintro a b ⟨hle, hneid⟩
    rcases hle with hlt | ⟨heq, hide⟩
    · refine ⟨le_of_lt hlt, fun heq => absurd hlt ?_⟩
      rw [heq]
      exact lt_irrefl _
    · exact ⟨le_of_eq heq.symm, fun _ => lt_of_le_of_ne hide hneid⟩
  exact hfull.sublist (List.take_sublist k _)

/-- C3 witness: two equal-scored items are returned in ascending row
order, per the theorem. -/
theorem C3_witness :
    (1 : Nat) ≤ 2 ∧
    (([IndexEntry.mk 0 [] [1], IndexEntry.mk 1 [] [2]] :
        List IndexEntry).map IndexEntry.id).Nodup ∧
    (indexSearch (fun _ _ => 0)
      [IndexEntry.mk 0 [] [1], IndexEntry.mk 1 [] [2]] [1] 2).Pairwise
      (fun a b => b.score ≤ a.score ∧ (a.score = b.score → a.id < b.id)) :=
  ⟨by decide, by decide,
   C3_theorem (fun _ _ => 0)
     [IndexEntry.mk 0 [] [1], IndexEntry.mk 1 [] [2]] [1] 2 (by decide)
     (by decide)⟩

end MovieRag
